import Mathlib

/-!
Verification development for the cato-display-app 17-segment display core.

The geometry code of the repository computes with `f32` values built from
rational literals and the two constants `FRAC_1_SQRT_2` and `SQRT_2`.  We
embed the arithmetic exactly in the quadratic field `Q2 = ℚ[sqrt 2]`,
represented as pairs `a + b * sqrt 2` of rationals, so that every drawing
computation is executable and equality of emitted points is decidable.
-/

namespace CatoDisplay

/-- An element `a + b * sqrt 2` of the field `Q2 = ℚ adjoin sqrt 2`, the exact
carrier for the `f32` scalar arithmetic of the source. -/
@[ext]
structure Q2 where
  a : ℚ
  b : ℚ
deriving DecidableEq

namespace Q2

/-- Exact addition. -/
def add (x y : Q2) : Q2 := ⟨x.a + y.a, x.b + y.b⟩

/-- Exact multiplication, using `sqrt 2 * sqrt 2 = 2`. -/
def mul (x y : Q2) : Q2 := ⟨x.a * y.a + 2 * (x.b * y.b), x.a * y.b + x.b * y.a⟩

/-- Exact negation. -/
def neg (x : Q2) : Q2 := ⟨-x.a, -x.b⟩

/-- Exact subtraction. -/
def sub (x y : Q2) : Q2 := ⟨x.a - y.a, x.b - y.b⟩

instance : Zero Q2 := ⟨⟨0, 0⟩⟩

instance : One Q2 := ⟨⟨1, 0⟩⟩

instance : Add Q2 := ⟨Q2.add⟩

instance : Mul Q2 := ⟨Q2.mul⟩

instance : Neg Q2 := ⟨Q2.neg⟩

instance : Sub Q2 := ⟨Q2.sub⟩

theorem add_assoc' (x y z : Q2) : add (add x y) z = add x (add y z) := by
  apply Q2.ext <;> simp [add] <;> ring

theorem add_comm' (x y : Q2) : add x y = add y x := by
  apply Q2.ext <;> simp [add] <;> ring

theorem zero_add' (x : Q2) : add ⟨0, 0⟩ x = x := by
  apply Q2.ext <;> simp [add]

theorem add_zero' (x : Q2) : add x ⟨0, 0⟩ = x := by
  apply Q2.ext <;> simp [add]

theorem neg_add_cancel' (x : Q2) : add (neg x) x = ⟨0, 0⟩ := by
  apply Q2.ext <;> simp [add, neg]

theorem mul_assoc' (x y z : Q2) : mul (mul x y) z = mul x (mul y z) := by
  apply Q2.ext <;> simp [mul] <;> ring

theorem mul_comm' (x y : Q2) : mul x y = mul y x := by
  apply Q2.ext <;> simp [mul] <;> ring

theorem one_mul' (x : Q2) : mul ⟨1, 0⟩ x = x := by
  apply Q2.ext <;> simp [mul]

theorem mul_one' (x : Q2) : mul x ⟨1, 0⟩ = x := by
  apply Q2.ext <;> simp [mul]

theorem zero_mul' (x : Q2) : mul ⟨0, 0⟩ x = ⟨0, 0⟩ := by
  apply Q2.ext <;> simp [mul]

theorem mul_zero' (x : Q2) : mul x ⟨0, 0⟩ = ⟨0, 0⟩ := by
  apply Q2.ext <;> simp [mul]

theorem left_distrib' (x y z : Q2) :
    mul x (add y z) = add (mul x y) (mul x z) := by
  apply Q2.ext <;> simp [mul, add] <;> ring

theorem right_distrib' (x y z : Q2) :
    mul (add x y) z = add (mul x z) (mul y z) := by
  apply Q2.ext <;> simp [mul, add] <;> ring

theorem sub_eq_add_neg' (x y : Q2) : sub x y = add x (neg y) := by
  apply Q2.ext <;> simp [sub, add, neg] <;> ring

instance instCommRingQ2 : CommRing Q2 where
  nsmul := nsmulRec
  zsmul := zsmulRec
  add_assoc := add_assoc'
  zero_add := zero_add'
  add_zero := add_zero'
  add_comm := add_comm'
  mul_assoc := mul_assoc'
  one_mul := one_mul'
  mul_one := mul_one'
  left_distrib := left_distrib'
  right_distrib := right_distrib'
  zero_mul := zero_mul'
  mul_zero := mul_zero'
  mul_comm := mul_comm'
  sub_eq_add_neg := sub_eq_add_neg'
  neg_add_cancel := neg_add_cancel'

@[simp] theorem add_a (x y : Q2) : (x + y).a = x.a + y.a := rfl

@[simp] theorem add_b (x y : Q2) : (x + y).b = x.b + y.b := rfl

@[simp] theorem mul_a (x y : Q2) : (x * y).a = x.a * y.a + 2 * (x.b * y.b) := rfl

@[simp] theorem mul_b (x y : Q2) : (x * y).b = x.a * y.b + x.b * y.a := rfl

@[simp] theorem neg_a (x : Q2) : (-x).a = -x.a := rfl

@[simp] theorem neg_b (x : Q2) : (-x).b = -x.b := rfl

@[simp] theorem sub_a (x y : Q2) : (x - y).a = x.a - y.a := rfl

@[simp] theorem sub_b (x y : Q2) : (x - y).b = x.b - y.b := rfl

@[simp] theorem zero_a : (0 : Q2).a = 0 := rfl

@[simp] theorem zero_b : (0 : Q2).b = 0 := rfl

@[simp] theorem one_a : (1 : Q2).a = 1 := rfl

@[simp] theorem one_b : (1 : Q2).b = 0 := rfl

theorem eq_iff (x y : Q2) : x = y ↔ x.a = y.a ∧ x.b = y.b :=
  ⟨fun h => by rw [h]; exact ⟨rfl, rfl⟩, fun ⟨h1, h2⟩ => Q2.ext h1 h2⟩

end Q2

/-- Embeds a rational literal of the source into `Q2`. -/
def q (x : ℚ) : Q2 := ⟨x, 0⟩

@[simp] theorem q_a (x : ℚ) : (q x).a = x := rfl

@[simp] theorem q_b (x : ℚ) : (q x).b = 0 := rfl

/-- Exact value of the constant `std::f32::consts::SQRT_2`. -/
def SQRT_2 : Q2 := ⟨0, 1⟩

/-- Exact value of the constant `std::f32::consts::FRAC_1_SQRT_2`;
note `1 / sqrt 2 = sqrt 2 / 2` exactly. -/
def FRAC_1_SQRT_2 : Q2 := ⟨0, 1/2⟩

@[simp] theorem SQRT_2_a : SQRT_2.a = 0 := rfl

@[simp] theorem SQRT_2_b : SQRT_2.b = 1 := rfl

@[simp] theorem FRAC_1_SQRT_2_a : FRAC_1_SQRT_2.a = 0 := rfl

@[simp] theorem FRAC_1_SQRT_2_b : FRAC_1_SQRT_2.b = 1/2 := rfl

/-- Embedding of `glam::Vec2`: a 2-D vector over the exact scalars. -/
@[ext]
structure Vec2 where
  x : Q2
  y : Q2
deriving DecidableEq

namespace Vec2

/-- `Vec2::new`. -/
def new (x y : Q2) : Vec2 := ⟨x, y⟩

instance : Add Vec2 := ⟨fun v w => ⟨v.x + w.x, v.y + w.y⟩⟩

instance : Neg Vec2 := ⟨fun v => ⟨-v.x, -v.y⟩⟩

/-- Component-wise product (glam `Vec2 * Vec2`). -/
def cmul (v w : Vec2) : Vec2 := ⟨v.x * w.x, v.y * w.y⟩

/-- Scalar product (glam `f32 * Vec2` and `Vec2 * f32`). -/
def smul (s : Q2) (v : Vec2) : Vec2 := ⟨s * v.x, s * v.y⟩

/-- `Vec2::ZERO`. -/
def zero : Vec2 := ⟨0, 0⟩

/-- `Vec2::ONE`. -/
def one : Vec2 := ⟨1, 1⟩

/-- `Vec2::NEG_ONE`. -/
def negOne : Vec2 := ⟨-1, -1⟩

/-- `Vec2::X`. -/
def unitX : Vec2 := ⟨1, 0⟩

/-- `Vec2::Y`. -/
def unitY : Vec2 := ⟨0, 1⟩

/-- `Vec2::NEG_X`. -/
def negX : Vec2 := ⟨-1, 0⟩

/-- `Vec2::NEG_Y`. -/
def negY : Vec2 := ⟨0, -1⟩

@[simp] theorem add_x (v w : Vec2) : (v + w).x = v.x + w.x := rfl

@[simp] theorem add_y (v w : Vec2) : (v + w).y = v.y + w.y := rfl

@[simp] theorem neg_x (v : Vec2) : (-v).x = -v.x := rfl

@[simp] theorem neg_y (v : Vec2) : (-v).y = -v.y := rfl

@[simp] theorem cmul_x (v w : Vec2) : (cmul v w).x = v.x * w.x := rfl

@[simp] theorem cmul_y (v w : Vec2) : (cmul v w).y = v.y * w.y := rfl

@[simp] theorem smul_x (s : Q2) (v : Vec2) : (smul s v).x = s * v.x := rfl

@[simp] theorem smul_y (s : Q2) (v : Vec2) : (smul s v).y = s * v.y := rfl

/-- Right scalar product (glam `Vec2 * f32`). -/
def mulScalar (v : Vec2) (s : Q2) : Vec2 := ⟨v.x * s, v.y * s⟩

@[simp] theorem mulScalar_x (v : Vec2) (s : Q2) : (v.mulScalar s).x = v.x * s := rfl

@[simp] theorem mulScalar_y (v : Vec2) (s : Q2) : (v.mulScalar s).y = v.y * s := rfl

@[simp] theorem new_x (a b : Q2) : (new a b).x = a := rfl

@[simp] theorem new_y (a b : Q2) : (new a b).y = b := rfl

theorem eq_comp_iff (v w : Vec2) : v = w ↔ v.x = w.x ∧ v.y = w.y :=
  ⟨fun h => by rw [h]; exact ⟨rfl, rfl⟩, fun ⟨h1, h2⟩ => Vec2.ext h1 h2⟩

end Vec2

/-- Embedding of `glam::Mat2`, a 2 x 2 matrix with rows `(a b)` and `(c d)`. -/
@[ext]
structure Mat2 where
  a : Q2
  b : Q2
  c : Q2
  d : Q2
deriving DecidableEq

namespace Mat2

/-- Matrix-vector product (glam `Mat2 * Vec2`). -/
def mulVec (m : Mat2) (v : Vec2) : Vec2 :=
  ⟨m.a * v.x + m.b * v.y, m.c * v.x + m.d * v.y⟩

/-- Matrix-matrix product (glam `Mat2 * Mat2`). -/
def mul (m n : Mat2) : Mat2 :=
  ⟨m.a * n.a + m.b * n.c, m.a * n.b + m.b * n.d,
   m.c * n.a + m.d * n.c, m.c * n.b + m.d * n.d⟩

/-- `Mat2::IDENTITY`. -/
def IDENT : Mat2 := ⟨1, 0, 0, 1⟩

/-- `Mat2::from_diagonal`. -/
def fromDiagonal (v : Vec2) : Mat2 := ⟨v.x, 0, 0, v.y⟩

@[simp] theorem mulVec_x (m : Mat2) (v : Vec2) :
    (m.mulVec v).x = m.a * v.x + m.b * v.y := rfl

@[simp] theorem mulVec_y (m : Mat2) (v : Vec2) :
    (m.mulVec v).y = m.c * v.x + m.d * v.y := rfl

@[simp] theorem mul_ea (m n : Mat2) : (m.mul n).a = m.a * n.a + m.b * n.c := rfl

@[simp] theorem mul_eb (m n : Mat2) : (m.mul n).b = m.a * n.b + m.b * n.d := rfl

@[simp] theorem mul_ec (m n : Mat2) : (m.mul n).c = m.c * n.a + m.d * n.c := rfl

@[simp] theorem mul_ed (m n : Mat2) : (m.mul n).d = m.c * n.b + m.d * n.d := rfl

/-- Matrix product acts on vectors by composition; exact arithmetic makes the
associativity the `f32` code relies on a theorem. -/
theorem mulVec_mul (m n : Mat2) (v : Vec2) :
    (m.mul n).mulVec v = m.mulVec (n.mulVec v) := by
  apply Vec2.ext <;> simp <;> ring

@[simp] theorem IDENT_mul (m : Mat2) : IDENT.mul m = m := by
  apply Mat2.ext <;> simp [IDENT]

@[simp] theorem mul_IDENT (m : Mat2) : m.mul IDENT = m := by
  apply Mat2.ext <;> simp [IDENT]

@[simp] theorem IDENT_mulVec (v : Vec2) : IDENT.mulVec v = v := by
  apply Vec2.ext <;> simp [IDENT]

end Mat2

/-- Embedding of `iced::Size<f32>`. -/
@[ext]
structure Size where
  width : Q2
  height : Q2
deriving DecidableEq

namespace Size

/-- `Size::new`. -/
def new (w h : Q2) : Size := ⟨w, h⟩

@[simp] theorem new_width (w h : Q2) : (new w h).width = w := rfl

@[simp] theorem new_height (w h : Q2) : (new w h).height = h := rfl

end Size

/-- One drawing command issued to the `iced` canvas path `Builder`.  The draw
functions of the source only ever call `move_to`, `line_to` and `close`, so a
builder run is faithfully recorded as the ordered list of these events. -/
inductive PathEvent where
  | moveTo (p : Vec2)
  | lineTo (p : Vec2)
  | close
deriving DecidableEq

/-- Applies a 2 x 2 transform to every point of a recorded path. -/
def mapEvents (f : Vec2 → Vec2) : List PathEvent → List PathEvent :=
  List.map fun e =>
    match e with
    | PathEvent.moveTo p => PathEvent.moveTo (f p)
    | PathEvent.lineTo p => PathEvent.lineTo (f p)
    | PathEvent.close => PathEvent.close

/-- Collects the points of the recorded `move_to` and `line_to` commands, in
order: the emitted outline points of a segment. -/
def pointsOf : List PathEvent → List Vec2
  | [] => []
  | PathEvent.moveTo p :: es => p :: pointsOf es
  | PathEvent.lineTo p :: es => p :: pointsOf es
  | PathEvent.close :: es => pointsOf es

namespace path

/-- Embedding of `path::Options` from `digit.rs`. -/
structure Options where
  size : Size
  gap : Q2
  thickness : Q2
  pos_transform : Mat2
  transform : Mat2
deriving DecidableEq

/-- Embedding of `Default for path::Options`. -/
def Options.defaultOptions : Options :=
  { gap := q 2
    thickness := q 12
    size := Size.new (q 100) (q 200)
    pos_transform := Mat2.IDENT
    transform := Mat2.IDENT }

/-- Embedding of `path::Options::transform`, which composes a new transform on
the left: `self.transform = transform * self.transform`. -/
def Options.withTransform (o : Options) (t : Mat2) : Options :=
  { o with transform := t.mul o.transform }

/-- Embedding of `path::segment_a1` from `digit.rs`: the A1 base shape,
recorded as its emitted builder events. -/
def segment_a1 (o : Options) : List PathEvent :=
  let topleft := (Vec2.new o.size.width o.size.height).mulScalar (q (-(1/2)))
  let hgap := o.gap * q (1/2)
  let dgap := o.gap * FRAC_1_SQRT_2 * q (1/2)
  let dgap_inner := o.gap * SQRT_2 * q (1/2)
  let hthick := o.thickness * q (1/2)
  [PathEvent.moveTo (o.transform.mulVec
      (o.pos_transform.mulVec (topleft + Vec2.new hthick hthick)
        + Vec2.new dgap (-dgap))),
   PathEvent.lineTo ((o.transform.mul o.pos_transform).mulVec
      (topleft + Vec2.new o.thickness 0)),
   PathEvent.lineTo (o.transform.mulVec
      (o.pos_transform.mulVec (Vec2.new 0 topleft.y)
        + Vec2.new (-hgap) 0)),
   PathEvent.lineTo (o.transform.mulVec
      (o.pos_transform.mulVec (Vec2.new 0 (topleft.y + o.thickness))
        + Vec2.new (-hgap) 0)),
   PathEvent.lineTo (o.transform.mulVec
      (o.pos_transform.mulVec (topleft + Vec2.new o.thickness o.thickness)
        + Vec2.new dgap_inner 0)),
   PathEvent.close]

/-- Embedding of `path::segment_f` from `digit.rs`: the F base shape. -/
def segment_f (o : Options) : List PathEvent :=
  let topleft := (Vec2.new o.size.width o.size.height).mulScalar (q (-(1/2)))
  let dgap := o.gap * FRAC_1_SQRT_2 * q (1/2)
  let dgap_inner := o.gap * SQRT_2 * q (1/2)
  let hthick := o.thickness * q (1/2)
  [PathEvent.moveTo (o.transform.mulVec
      (o.pos_transform.mulVec (topleft + Vec2.new hthick hthick)
        + Vec2.new (-dgap) dgap)),
   PathEvent.lineTo (o.transform.mulVec
      (o.pos_transform.mulVec (topleft + Vec2.new o.thickness o.thickness)
        + Vec2.new 0 dgap_inner)),
   PathEvent.lineTo (o.transform.mulVec
      (o.pos_transform.mulVec (Vec2.new (topleft.x + o.thickness) (-hthick))
        + Vec2.new 0 (-dgap_inner))),
   PathEvent.lineTo (o.transform.mulVec
      (o.pos_transform.mulVec (Vec2.new (topleft.x + hthick) 0)
        + Vec2.new (-dgap) (-dgap))),
   PathEvent.lineTo (o.transform.mulVec
      (o.pos_transform.mulVec (Vec2.new topleft.x (-hthick)))),
   PathEvent.lineTo ((o.transform.mul o.pos_transform).mulVec
      (topleft + Vec2.new 0 o.thickness)),
   PathEvent.close]

/-- Embedding of `path::segment_g1` from `digit.rs`: the G1 base shape. -/
def segment_g1 (o : Options) : List PathEvent :=
  let left := o.size.width * q (-(1/2))
  let hgap := o.gap * q (1/2)
  let dgap_inner := o.gap * SQRT_2 * q (1/2)
  let hthick := o.thickness * q (1/2)
  [PathEvent.moveTo (o.transform.mulVec
      (o.pos_transform.mulVec (Vec2.new (left + hthick) 0)
        + Vec2.new dgap_inner 0)),
   PathEvent.lineTo (o.transform.mulVec
      (o.pos_transform.mulVec (Vec2.new (left + o.thickness) (-hthick))
        + Vec2.new dgap_inner 0)),
   PathEvent.lineTo (o.transform.mulVec
      (o.pos_transform.mulVec (Vec2.new 0 (-hthick))
        + Vec2.new (-hgap) 0)),
   PathEvent.lineTo (o.transform.mulVec
      (o.pos_transform.mulVec (Vec2.new 0 hthick)
        + Vec2.new (-hgap) 0)),
   PathEvent.lineTo (o.transform.mulVec
      (o.pos_transform.mulVec (Vec2.new (left + o.thickness) hthick)
        + Vec2.new dgap_inner 0)),
   PathEvent.close]

/-- Constant `SHORT_SIDE` of `path::segment_h`. -/
def SHORT_SIDE : Q2 := q (8/100)

/-- Constant `LONG_SIDE` of `path::segment_h`. -/
def LONG_SIDE : Q2 := q (15/100)

/-- Embedding of `path::segment_h` from `digit.rs`: the H base shape. -/
def segment_h (o : Options) : List PathEvent :=
  let topleft := (Vec2.new o.size.width o.size.height).mulScalar (q (-(1/2)))
  let hthick := o.thickness * q (1/2)
  [PathEvent.moveTo (o.transform.mulVec
      (o.pos_transform.mulVec (topleft + Vec2.new o.thickness o.thickness)
        + Vec2.new o.gap o.gap)),
   PathEvent.lineTo (o.transform.mulVec
      (o.pos_transform.mulVec
          (topleft + Vec2.new (o.thickness + o.size.width * SHORT_SIDE) o.thickness)
        + Vec2.new o.gap o.gap)),
   PathEvent.lineTo (o.transform.mulVec
      (o.pos_transform.mulVec
          (Vec2.new (-hthick) (-hthick - o.size.height * LONG_SIDE))
        + Vec2.new (-o.gap) (-o.gap))),
   PathEvent.lineTo (o.transform.mulVec
      (o.pos_transform.mulVec (Vec2.new (-hthick) (-hthick))
        + Vec2.new (-o.gap) (-o.gap))),
   PathEvent.lineTo (o.transform.mulVec
      (o.pos_transform.mulVec
          (Vec2.new (-hthick - o.size.width * SHORT_SIDE) (-hthick))
        + Vec2.new (-o.gap) (-o.gap))),
   PathEvent.lineTo (o.transform.mulVec
      (o.pos_transform.mulVec
          (topleft + Vec2.new o.thickness (o.thickness + o.size.height * LONG_SIDE))
        + Vec2.new o.gap o.gap)),
   PathEvent.close]

/-- Embedding of `path::segment_i` from `digit.rs`: the I base shape. -/
def segment_i (o : Options) : List PathEvent :=
  let top := o.size.height * q (-(1/2))
  let hthick := o.thickness * q (1/2)
  [PathEvent.moveTo (o.transform.mulVec
      (o.pos_transform.mulVec (Vec2.new (-hthick) (top + o.thickness))
        + Vec2.new 0 o.gap)),
   PathEvent.lineTo (o.transform.mulVec
      (o.pos_transform.mulVec (Vec2.new hthick (top + o.thickness))
        + Vec2.new 0 o.gap)),
   PathEvent.lineTo (o.transform.mulVec
      (o.pos_transform.mulVec (Vec2.new hthick (-hthick))
        + Vec2.new 0 (-o.gap))),
   PathEvent.lineTo (o.transform.mulVec
      (o.pos_transform.mulVec (Vec2.new (-hthick) (-hthick))
        + Vec2.new 0 (-o.gap))),
   PathEvent.close]

/-- Embedding of `path::segment_dot` from `digit.rs`: the decimal point draw
function is an intentional no-op (its body is only a TODO comment). -/
def segment_dot (_o : Options) : List PathEvent := []

/-- Embedding of `path::SegmentInstruction` from `digit.rs`: a draw function
paired with a per-segment reflection matrix. -/
structure SegmentInstruction where
  draw : Options → List PathEvent
  transform : Mat2

/-- `Mat2::IDENTITY` as used by the instruction table. -/
def IDENT : Mat2 := Mat2.IDENT

/-- `Mat2::from_diagonal(Vec2::new(-1., 1.))`. -/
def MIRROR_X : Mat2 := Mat2.fromDiagonal (Vec2.new (-1) 1)

/-- `Mat2::from_diagonal(Vec2::new(1., -1.))`. -/
def MIRROR_Y : Mat2 := Mat2.fromDiagonal (Vec2.new 1 (-1))

/-- `Mat2::from_diagonal(Vec2::new(-1., -1.))`. -/
def MIRROR_XY : Mat2 := Mat2.fromDiagonal (Vec2.new (-1) (-1))

/-- Embedding of `path::SEGMENT_INSTRUCTIONS` from `digit.rs`: the 17-entry
function table, in segment-ordinal order A1, A2, B, C, D1, D2, E, F, G1, G2,
H, I, J, K, L, M, DP. -/
def SEGMENT_INSTRUCTIONS : Fin 17 → SegmentInstruction :=
  ![⟨segment_a1, IDENT⟩,
    ⟨segment_a1, MIRROR_X⟩,
    ⟨segment_f, MIRROR_X⟩,
    ⟨segment_f, MIRROR_XY⟩,
    ⟨segment_a1, MIRROR_Y⟩,
    ⟨segment_a1, MIRROR_XY⟩,
    ⟨segment_f, MIRROR_Y⟩,
    ⟨segment_f, IDENT⟩,
    ⟨segment_g1, IDENT⟩,
    ⟨segment_g1, MIRROR_X⟩,
    ⟨segment_h, IDENT⟩,
    ⟨segment_i, IDENT⟩,
    ⟨segment_h, MIRROR_X⟩,
    ⟨segment_h, MIRROR_Y⟩,
    ⟨segment_i, MIRROR_Y⟩,
    ⟨segment_h, MIRROR_XY⟩,
    ⟨segment_dot, IDENT⟩]

/-- The path drawn for segment `i` inside `DigitProgram::draw_segments`:
the instruction's draw function applied to the caller options composed with
the instruction's own reflection, `(instructions.draw)(d,
options.transform(instructions.transform))`. -/
def segmentEvents (i : Fin 17) (o : Options) : List PathEvent :=
  (SEGMENT_INSTRUCTIONS i).draw (o.withTransform (SEGMENT_INSTRUCTIONS i).transform)

end path

namespace geometry

/-- Embedding of `SegmentPoint` from `digit/geometry.rs`: one outline vertex
as three independent linear contributions. -/
structure SegmentPoint where
  pos : Vec2
  thickness_offset : Vec2
  gap_offset : Vec2
deriving DecidableEq

/-- Embedding of `SegmentPoint::new`: zero thickness and gap offsets. -/
def SegmentPoint.new (pos : Vec2) : SegmentPoint := ⟨pos, Vec2.zero, Vec2.zero⟩

/-- Embedding of `SegmentPoint::with_thickness_offset`. -/
def SegmentPoint.with_thickness_offset (p : SegmentPoint) (t : Vec2) :
    SegmentPoint := { p with thickness_offset := t }

/-- Embedding of `SegmentPoint::with_gap_offset`. -/
def SegmentPoint.with_gap_offset (p : SegmentPoint) (g : Vec2) :
    SegmentPoint := { p with gap_offset := g }

/-- Embedding of `DrawingOptions` from `digit/geometry.rs`. -/
structure DrawingOptions where
  size : Size
  gap : Q2
  thickness : Q2
  pos_transform : Mat2
  transform : Mat2
deriving DecidableEq

/-- Embedding of `Default for DrawingOptions`. -/
def DrawingOptions.defaultOptions : DrawingOptions :=
  { gap := q 2
    thickness := q 12
    size := Size.new (q 100) (q 200)
    pos_transform := Mat2.IDENT
    transform := Mat2.IDENT }

/-- Embedding of `DrawingOptions::transform`, which composes on the right:
`transform: self.transform * mat` (note the opposite order to
`path::Options::transform`). -/
def DrawingOptions.withTransform (o : DrawingOptions) (mat : Mat2) :
    DrawingOptions := { o with transform := o.transform.mul mat }

/-- Embedding of `draw_path` from `digit/geometry.rs`: for each table point,
world position is `transform * (pos_transform * (pos_ref * pos + thick *
thickness_offset) + gap * gap_offset)` with `pos_ref` half the cell size; an
empty point list emits nothing (early return, no `close`). -/
def draw_path (points : List SegmentPoint) (o : DrawingOptions) :
    List PathEvent :=
  match points with
  | [] => []
  | first :: rest =>
    let pos_ref := (Vec2.new o.size.width o.size.height).mulScalar (q (1/2))
    let world := fun (sp : SegmentPoint) =>
      o.transform.mulVec
        (o.pos_transform.mulVec
            (Vec2.cmul pos_ref sp.pos + Vec2.smul o.thickness sp.thickness_offset)
          + Vec2.smul o.gap sp.gap_offset)
    PathEvent.moveTo (world first)
      :: (rest.map fun sp => PathEvent.lineTo (world sp))
      ++ [PathEvent.close]

/-- Constant `DGAP` of `digit/geometry.rs`: `FRAC_1_SQRT_2 * 0.5`. -/
def DGAP : Q2 := FRAC_1_SQRT_2 * q (1/2)

/-- Constant `DGAP_INNER` of `digit/geometry.rs`: `SQRT_2 * 0.5`. -/
def DGAP_INNER : Q2 := SQRT_2 * q (1/2)

/-- `TOP_LEFT = Vec2::NEG_ONE`. -/
def TOP_LEFT : Vec2 := Vec2.negOne

/-- `TOP = Vec2::NEG_Y`. -/
def TOP : Vec2 := Vec2.negY

/-- `LEFT = Vec2::NEG_X`. -/
def LEFT : Vec2 := Vec2.negX

/-- `MID = Vec2::ZERO`. -/
def MID : Vec2 := Vec2.zero

/-- Embedding of the point table `A1` from `digit/geometry.rs`. -/
def A1 : List SegmentPoint :=
  [((SegmentPoint.new TOP_LEFT).with_thickness_offset
      (Vec2.new (q (1/2)) (q (1/2)))).with_gap_offset (Vec2.new DGAP (-DGAP)),
   (SegmentPoint.new TOP_LEFT).with_thickness_offset Vec2.unitX,
   (SegmentPoint.new TOP).with_gap_offset (Vec2.new (q (-(1/2))) 0),
   ((SegmentPoint.new TOP).with_thickness_offset
      Vec2.unitY).with_gap_offset (Vec2.new (q (-(1/2))) 0),
   ((SegmentPoint.new TOP_LEFT).with_thickness_offset
      Vec2.one).with_gap_offset (Vec2.new DGAP_INNER 0)]

/-- Embedding of the point table `F` from `digit/geometry.rs`. -/
def F : List SegmentPoint :=
  [((SegmentPoint.new TOP_LEFT).with_thickness_offset
      (Vec2.new (q (1/2)) (q (1/2)))).with_gap_offset (Vec2.new (-DGAP) DGAP),
   ((SegmentPoint.new TOP_LEFT).with_thickness_offset
      Vec2.one).with_gap_offset (Vec2.new 0 DGAP_INNER),
   ((SegmentPoint.new LEFT).with_thickness_offset
      (Vec2.new (q 1) (q (-(1/2))))).with_gap_offset (Vec2.new 0 (-DGAP_INNER)),
   ((SegmentPoint.new LEFT).with_thickness_offset
      (Vec2.new (q (1/2)) 0)).with_gap_offset
      (Vec2.new (q (-(1/2))) (q (-(1/2)))),
   (SegmentPoint.new LEFT).with_thickness_offset (Vec2.new 0 (q (-(1/2)))),
   (SegmentPoint.new TOP_LEFT).with_thickness_offset Vec2.unitY]

/-- Embedding of the point table `G1` from `digit/geometry.rs`. -/
def G1 : List SegmentPoint :=
  [((SegmentPoint.new LEFT).with_thickness_offset
      (Vec2.new (q (1/2)) 0)).with_gap_offset (Vec2.new DGAP_INNER 0),
   ((SegmentPoint.new LEFT).with_thickness_offset
      (Vec2.new (q 1) (q (-(1/2))))).with_gap_offset (Vec2.new DGAP_INNER 0),
   ((SegmentPoint.new MID).with_thickness_offset
      (Vec2.new 0 (q (-(1/2))))).with_gap_offset (Vec2.new (q (-(1/2))) 0),
   ((SegmentPoint.new MID).with_thickness_offset
      (Vec2.new 0 (q (1/2)))).with_gap_offset (Vec2.new (q (-(1/2))) 0),
   ((SegmentPoint.new LEFT).with_thickness_offset
      (Vec2.new (q 1) (q (1/2)))).with_gap_offset (Vec2.new DGAP_INNER 0)]

/-- Embedding of the point table `H` from `digit/geometry.rs`. -/
def H : List SegmentPoint :=
  [((SegmentPoint.new TOP_LEFT).with_thickness_offset
      Vec2.one).with_gap_offset Vec2.one,
   ((SegmentPoint.new TOP_LEFT).with_thickness_offset
      (Vec2.new (q (3/2)) (q 1))).with_gap_offset Vec2.one,
   ((SegmentPoint.new (Vec2.new 0 (q (-(1/2))))).with_thickness_offset
      (Vec2.new (q (-(1/2))) 0)).with_gap_offset Vec2.negX,
   ((SegmentPoint.new MID).with_thickness_offset
      (Vec2.new (q (-(1/2))) (q (-(1/2))))).with_gap_offset Vec2.negOne,
   ((SegmentPoint.new MID).with_thickness_offset
      (Vec2.new (q (-1)) (q (-(1/2))))).with_gap_offset Vec2.negOne,
   ((SegmentPoint.new (Vec2.new (q (-1)) (q (-(1/2))))).with_thickness_offset
      Vec2.unitX).with_gap_offset Vec2.unitX]

/-- Embedding of the point table `I` from `digit/geometry.rs`. -/
def I : List SegmentPoint :=
  [((SegmentPoint.new TOP).with_thickness_offset
      (Vec2.new (q (-(1/2))) (q 1))).with_gap_offset Vec2.unitY,
   ((SegmentPoint.new TOP).with_thickness_offset
      (Vec2.new (q (1/2)) (q 1))).with_gap_offset Vec2.unitY,
   ((SegmentPoint.new MID).with_thickness_offset
      (Vec2.new (q (1/2)) (q (-(1/2))))).with_gap_offset Vec2.negY,
   ((SegmentPoint.new MID).with_thickness_offset
      (Vec2.new (q (-(1/2))) (q (-(1/2))))).with_gap_offset Vec2.negY]

/-- Embedding of `SegmentInstruction` from `digit/geometry.rs`: a base point
table paired with a reflection matrix. -/
structure SegmentInstruction where
  points : List SegmentPoint
  transform : Mat2

/-- Embedding of `SEGMENT_INSTRUCTIONS` from `digit/geometry.rs`: the 16-entry
point-table encoding (no DP entry), in segment-ordinal order A1, A2, B, C,
D1, D2, E, F, G1, G2, H, I, J, K, L, M. -/
def SEGMENT_INSTRUCTIONS : Fin 16 → SegmentInstruction :=
  ![⟨A1, path.IDENT⟩,
    ⟨A1, path.MIRROR_X⟩,
    ⟨F, path.MIRROR_X⟩,
    ⟨F, path.MIRROR_XY⟩,
    ⟨A1, path.MIRROR_Y⟩,
    ⟨A1, path.MIRROR_XY⟩,
    ⟨F, path.MIRROR_Y⟩,
    ⟨F, path.IDENT⟩,
    ⟨G1, path.IDENT⟩,
    ⟨G1, path.MIRROR_X⟩,
    ⟨H, path.IDENT⟩,
    ⟨I, path.IDENT⟩,
    ⟨H, path.MIRROR_X⟩,
    ⟨H, path.MIRROR_Y⟩,
    ⟨I, path.MIRROR_Y⟩,
    ⟨H, path.MIRROR_XY⟩]

/-- Running `draw_path` on the point-table instruction for segment `i`, with
caller options whose transforms are the identity, composed with the
instruction's own reflection via `DrawingOptions::transform`. -/
def segmentEvents (i : Fin 16) (size : Size) (gap thickness : Q2) :
    List PathEvent :=
  draw_path (SEGMENT_INSTRUCTIONS i).points
    (DrawingOptions.withTransform
      { size := size
        gap := gap
        thickness := thickness
        pos_transform := Mat2.IDENT
        transform := Mat2.IDENT }
      (SEGMENT_INSTRUCTIONS i).transform)

end geometry

/-- Embedding of the `Segment` enum of `digit.rs`: 17 variants with `repr(u8)`
discriminants 0..16 in declaration order. -/
inductive Segment where
  | A1
  | A2
  | B
  | C
  | D1
  | D2
  | E
  | F
  | G1
  | G2
  | H
  | I
  | J
  | K
  | L
  | M
  | DP
deriving DecidableEq, Fintype

namespace Segment

/-- The `repr(u8)` discriminant of a segment (Rust `segment as u8`). -/
def toIdx : Segment → Nat
  | A1 => 0
  | A2 => 1
  | B => 2
  | C => 3
  | D1 => 4
  | D2 => 5
  | E => 6
  | F => 7
  | G1 => 8
  | G2 => 9
  | H => 10
  | I => 11
  | J => 12
  | K => 13
  | L => 14
  | M => 15
  | DP => 16

/-- The segment with a given in-range discriminant: the checked model of the
`std::mem::transmute::<u8, Segment>` in `TryFrom<u8> for Segment`, which is
only reached for discriminants `0..=16` (values 17 and above fall to the
unreachable catch-all). -/
def ofIdx : Nat → Segment
  | 0 => A1
  | 1 => A2
  | 2 => B
  | 3 => C
  | 4 => D1
  | 5 => D2
  | 6 => E
  | 7 => F
  | 8 => G1
  | 9 => G2
  | 10 => H
  | 11 => I
  | 12 => J
  | 13 => K
  | 14 => L
  | 15 => M
  | _ => DP

/-- Embedding of `TryFrom<u8> for Segment`: succeed exactly on values up to
`Segment::DP as u8 = 16`, reproducing the transmuted variant. -/
def try_from (value : Fin 256) : Option Segment :=
  if value.val ≤ Segment.DP.toIdx then some (ofIdx value.val) else none

end Segment

/-- Embedding of `SegmentBits`, a newtype over `u32`; the raw bit pattern is
kept as a natural number (all operations of the source stay below `2 ^ 32`,
so no wrap-around arithmetic occurs). -/
structure SegmentBits where
  val : Nat
deriving DecidableEq

namespace SegmentBits

/-- `SegmentBits::new`, the zero mask. -/
def new : SegmentBits := ⟨0⟩

/-- `SegmentBits::is_empty`. -/
def is_empty (b : SegmentBits) : Bool := b.val == 0

/-- Embedding of `From<u32> for SegmentBits`: the raw value is stored with no
masking. -/
def fromU32 (value : Nat) : SegmentBits := ⟨value⟩

/-- Embedding of `BitOr<Segment> for SegmentBits`:
`Self(self.0 | (1 << rhs as u8))`. -/
def orSeg (b : SegmentBits) (s : Segment) : SegmentBits :=
  ⟨b.val ||| (1 <<< s.toIdx)⟩

/-- Embedding of `BitOr for SegmentBits`: bitwise union. -/
def or (x y : SegmentBits) : SegmentBits := ⟨x.val ||| y.val⟩

/-- Embedding of `BitAnd for SegmentBits`: bitwise intersection. -/
def and (x y : SegmentBits) : SegmentBits := ⟨x.val &&& y.val⟩

/-- Embedding of `BitAnd<Segment> for SegmentBits`, the membership test:
`self.0 & (1 << rhs as u8) != 0`. -/
def andSeg (b : SegmentBits) (s : Segment) : Bool :=
  b.val &&& (1 <<< s.toIdx) != 0

end SegmentBits

/-- Embedding of `BitOr for Segment`:
`SegmentBits::new() | self | rhs`. -/
def Segment.orJoin (s t : Segment) : SegmentBits :=
  (SegmentBits.new.orSeg s).orSeg t

/-- The expansion of the `segmented_font!` bit-list notation: a named segment
list folded into a mask by `SegmentBits::new() | s1 | s2 | ...`. -/
def segList (l : List Segment) : SegmentBits :=
  l.foldl SegmentBits.orSeg SegmentBits.new

/-- Embedding of `SegmentedFont`: the character map of the source is a
`HashMap` built from a literal list with pairwise-distinct keys, so it is
modelled as that association list looked up by key. -/
structure SegmentedFont where
  characters : List (Char × SegmentBits)

/-- Embedding of `SegmentedFont::new`. -/
def SegmentedFont.new (characters : List (Char × SegmentBits)) : SegmentedFont :=
  ⟨characters⟩

/-- Embedding of `SegmentedFont::get`. -/
def SegmentedFont.get (f : SegmentedFont) (ch : Char) : Option SegmentBits :=
  f.characters.lookup ch

section

open Segment

/-- Embedding of the `DEFAULT` font table of `segmented_font.rs`, with the
`segmented_font!` macro expanded entry by entry; the apostrophe key is
written `Char.ofNat 39`. -/
def DEFAULT : SegmentedFont := SegmentedFont.new
  [(' ', SegmentBits.new),
   ('!', segList [A1, A2, H, I, J, D1, D2]),
   ('"', segList [F, B]),
   ('#', segList [I, L, B, C, G1, G2, D1, D2]),
   ('$', segList [A1, A2, F, G1, G2, C, D1, D2, I, L]),
   ('%', segList [A1, J, K, D2]),
   ('&', segList [A1, F, I, G1, G2, E, M, D1, D2]),
   (Char.ofNat 39, segList [I]),
   ('(', segList [A1, F, E, D1]),
   (')', segList [A2, B, C, D2]),
   ('*', segList [G1, G2, H, I, J, K, L, M]),
   ('+', segList [I, L, G1, G2]),
   (',', segList [K]),
   ('-', segList [G1, G2]),
   ('.', segList [DP]),
   ('/', segList [J, K]),
   ('0', segList [A1, A2, B, C, D1, D2, E, F, J, K]),
   ('1', segList [J, B, C]),
   ('2', segList [A1, A2, B, G1, G2, E, D1, D2]),
   ('3', segList [A1, A2, B, G1, G2, C, D1, D2]),
   ('4', segList [F, B, G1, G2, C]),
   ('5', segList [A1, A2, F, G1, G2, C, D1, D2]),
   ('6', segList [A1, A2, F, G1, G2, E, C, D1, D2]),
   ('7', segList [A1, A2, B, C]),
   ('8', segList [A1, A2, B, C, D1, D2, E, F, G1, G2]),
   ('9', segList [A1, A2, B, C, D1, D2, F, G1, G2]),
   (':', segList [G1, D1]),
   (';', segList [A1, K]),
   ('<', segList [J, M]),
   ('=', segList [G1, G2, D1, D2]),
   ('>', segList [H, K]),
   ('?', segList [A1, A2, B, G2, L]),
   ('@', segList [A1, A2, B, C, D2, E, F, G2, L]),
   ('A', segList [A1, A2, B, C, E, F, G1, G2]),
   ('B', segList [A1, A2, B, C, D1, D2, G2, I, L]),
   ('C', segList [A1, A2, D1, D2, E, F]),
   ('D', segList [A1, A2, B, C, D1, D2, I, L]),
   ('E', segList [A1, A2, D1, D2, E, F, G1]),
   ('F', segList [A1, A2, E, F, G1]),
   ('G', segList [A1, A2, C, D1, D2, E, F, G2]),
   ('H', segList [B, C, E, F, G1, G2]),
   ('I', segList [A1, A2, D1, D2, I, L]),
   ('J', segList [B, C, D1, D2]),
   ('K', segList [E, F, G1, J, M]),
   ('L', segList [D1, D2, E, F]),
   ('M', segList [B, C, E, F, H, J]),
   ('N', segList [B, C, E, F, H, M]),
   ('O', segList [A1, A2, B, C, D1, D2, E, F]),
   ('P', segList [A1, A2, B, E, F, G1, G2]),
   ('Q', segList [A1, A2, B, C, D1, D2, E, F, M]),
   ('R', segList [A1, A2, B, E, F, G1, G2, M]),
   ('S', segList [A1, A2, C, D1, D2, F, G1, G2]),
   ('T', segList [A1, A2, I, L]),
   ('U', segList [B, C, D1, D2, E, F]),
   ('V', segList [E, F, J, K]),
   ('W', segList [B, C, E, F, K, M]),
   ('X', segList [H, J, K, M]),
   ('Y', segList [H, J, L]),
   ('Z', segList [A1, A2, D1, D2, J, K]),
   ('a', segList [G1, E, L, D1, D2]),
   ('b', segList [E, F, G1, G2, D1, D2, C]),
   ('c', segList [G1, G2, E, D1, D2]),
   ('d', segList [B, C, D1, D2, E, G1, G2]),
   ('e', segList [A1, A2, B, D1, D2, E, F, G1, G2]),
   ('f', segList [A2, I, L, G1, G2]),
   ('g', segList [A1, I, L, D1, F, G1]),
   ('h', segList [E, F, G1, G2, C]),
   ('i', segList [A1, A2, L]),
   ('j', segList [A1, A2, L, D1]),
   ('k', segList [E, F, G1, J, M]),
   ('l', segList [E, F]),
   ('m', segList [G1, G2, E, L, C]),
   ('n', segList [G1, G2, E, C]),
   ('o', segList [G1, G2, E, C, D1, D2]),
   ('p', segList [A1, I, G1, E, F]),
   ('q', segList [A2, B, C, I, G2]),
   ('r', segList [G1, E]),
   ('s', segList [G2, M, D2]),
   ('t', segList [E, F, G1, D1]),
   ('u', segList [E, D1, D2, C]),
   ('v', segList [E, K]),
   ('w', segList [E, K, M, C]),
   ('x', segList [H, J, K, M]),
   ('y', segList [H, J, L, D1]),
   ('z', segList [G1, K, D1])]

end

/-- Embedding of `iced::Color` restricted to the constructor the source uses. -/
structure Color where
  r : Q2
  g : Q2
  b : Q2
deriving DecidableEq

/-- `Color::from_rgb`. -/
def Color.from_rgb (r g b : Q2) : Color := ⟨r, g, b⟩

/-- Embedding of `iced::widget::canvas::Style` at its interface boundary: the
source only ever builds the `Solid` variant. -/
inductive Style where
  | solid (c : Color)
deriving DecidableEq

/-- Embedding of `DigitOptions` from `digit.rs`. -/
structure DigitOptions where
  size : Size
  gap : Q2
  thickness : Q2
  slant : Q2
  fill : Style
deriving DecidableEq

/-- Embedding of `DigitOptions::new` (also `Default`): size 40 x 80,
thickness 5.7, gap 1.3, slant 0, solid red fill. -/
def DigitOptions.new : DigitOptions :=
  { size := Size.new (q 40) (q 80)
    thickness := q (57/10)
    gap := q (13/10)
    slant := 0
    fill := Style.solid (Color.from_rgb 1 0 0) }

/-- Embedding of `iced::widget::canvas::fill::Rule`; the source always fills
with `Rule::NonZero`. -/
inductive FillRule where
  | nonZero
deriving DecidableEq

/-- One cached, filled segment geometry as produced inside
`DigitProgram::draw_segments`: the frame translation (half the cell size),
the recorded path of the segment, and the fill command parameters. -/
structure Geometry where
  translation : Vec2
  path : List PathEvent
  fillStyle : Style
  rule : FillRule
deriving DecidableEq

/-- Embedding of `DigitDisplay` from `digit.rs`.  The `iced` canvas `Cache`
of each segment is external library state modelled at its interface: a slot
is either empty (cleared) or holds the geometry drawn into it. -/
structure DigitDisplay where
  options : DigitOptions
  cache : Fin 17 → Option Geometry

namespace DigitDisplay

/-- Embedding of `DigitDisplay::new`: given options, all cache slots empty
(`SegmentsCache::default()`). -/
def new (options : DigitOptions) : DigitDisplay :=
  ⟨options, fun _ => none⟩

/-- Embedding of `DigitDisplay::clear_cache`: every slot is cleared. -/
def clear_cache (d : DigitDisplay) : DigitDisplay :=
  { d with cache := fun _ => none }

/-- Embedding of `DigitDisplay::set_options`: clear the cache, then store the
new options. -/
def set_options (d : DigitDisplay) (options : DigitOptions) : DigitDisplay :=
  let d1 := d.clear_cache
  { d1 with options := options }

/-- Embedding of `DigitDisplay::modify_options`: clear the cache, then apply
the modifier to the options in place. -/
def modify_options (d : DigitDisplay) (modifier : DigitOptions → DigitOptions) :
    DigitDisplay :=
  let d1 := d.clear_cache
  { d1 with options := modifier d1.options }

end DigitDisplay

/-- The geometry the `draw_segments` closure records for segment `i` under
the given cell options: translate the frame by half the cell size, build the
segment path from a `path::Options` with the cell size, gap and thickness
(remaining fields from `Default`), and fill it with the cell style and the
`NonZero` rule. -/
def segmentGeometry (o : DigitOptions) (i : Fin 17) : Geometry :=
  { translation := (Vec2.new o.size.width o.size.height).mulScalar (q (1/2))
    path := path.segmentEvents i
      { size := o.size
        gap := o.gap
        thickness := o.thickness
        pos_transform := Mat2.IDENT
        transform := Mat2.IDENT }
    fillStyle := o.fill
    rule := FillRule.nonZero }

/-- Interface model of `iced::widget::canvas::Cache::draw`: reuse the cached
geometry when the slot is filled, otherwise run the closure and store its
result. -/
def cacheDraw (slot : Option Geometry) (fresh : Geometry) :
    Geometry × Option Geometry :=
  match slot with
  | some g => (g, some g)
  | none => (fresh, some fresh)

/-- Embedding of `DigitProgram::draw_segments`: every one of the 17 segment
geometries is drawn (from cache or computed-and-cached). -/
def draw_segments (d : DigitDisplay) : (Fin 17 → Geometry) × DigitDisplay :=
  (fun i => (cacheDraw (d.cache i) (segmentGeometry d.options i)).1,
   { d with cache := fun i => (cacheDraw (d.cache i) (segmentGeometry d.options i)).2 })

/-- Embedding of `Program::draw` for `DigitProgram`: short-circuit to an empty
result when the mask is empty or the widget bounds differ from the configured
cell size; otherwise draw all segments and keep, in ordinal order, exactly
those whose bit is set (the source's `Segment::try_from(i as u8).unwrap()`
is `Segment.ofIdx i` for `i < 17`). -/
def programDraw (d : DigitDisplay) (segments : SegmentBits) (bounds : Size) :
    List Geometry × DigitDisplay :=
  if segments.is_empty = true ∨ bounds ≠ d.options.size then
    ([], d)
  else
    let drawn := draw_segments d
    (((List.finRange 17).filter fun i =>
        segments.andSeg (Segment.ofIdx i.val)).map drawn.1,
     drawn.2)

/-! Helper lemmas about the bitmask operations. -/

theorem Segment.toIdx_le (s : Segment) : s.toIdx ≤ 16 := by
  cases s <;> simp [Segment.toIdx]

/-- The membership test of the source is the bit test at the ordinal. -/
theorem SegmentBits.andSeg_eq_testBit (b : SegmentBits) (s : Segment) :
    b.andSeg s = b.val.testBit s.toIdx := by
  unfold SegmentBits.andSeg
  rw [Nat.shiftLeft_eq, one_mul, Nat.and_two_pow]
  cases h : b.val.testBit s.toIdx <;> simp [h]

theorem SegmentBits.orSeg_val (b : SegmentBits) (s : Segment) :
    (b.orSeg s).val = b.val ||| 2 ^ s.toIdx := by
  unfold SegmentBits.orSeg
  rw [Nat.shiftLeft_eq, one_mul]

/-- C5 is about these operations: union `or`, empty mask `new`, membership
`andSeg`. -/
theorem SegmentBits.or_val (x y : SegmentBits) :
    (x.or y).val = x.val ||| y.val := rfl

/-- C5: union of `SegmentBits` is commutative and associative, the empty mask
is its identity, and membership distributes over union:
`contains(union(a,b), s) = contains(a,s) || contains(b,s)` for every
segment `s`. -/
theorem segmentBits_union_algebra :
    ∀ a b c : SegmentBits,
      a.or b = b.or a ∧
      (a.or b).or c = a.or (b.or c) ∧
      a.or SegmentBits.new = a ∧
      ∀ s : Segment, (a.or b).andSeg s = (a.andSeg s || b.andSeg s) := by
  intro a b c
  refine ⟨?_, ?_, ?_, ?_⟩
  · show SegmentBits.mk (a.val ||| b.val) = SegmentBits.mk (b.val ||| a.val)
    rw [Nat.lor_comm]
  · show SegmentBits.mk ((a.val ||| b.val) ||| c.val)
        = SegmentBits.mk (a.val ||| (b.val ||| c.val))
    rw [Nat.lor_assoc]
  · show SegmentBits.mk (a.val ||| 0) = a
    rw [Nat.or_zero]
  · intro s
    rw [SegmentBits.andSeg_eq_testBit, SegmentBits.andSeg_eq_testBit,
      SegmentBits.andSeg_eq_testBit, SegmentBits.or_val, Nat.testBit_lor]

/-- C3 as stated is refuted here: `From<u32>` stores the raw value with no
masking, so converting `2 ^ 17 = 131072` yields a mask whose bit 17 is set. -/
theorem fromU32_sets_high_bit :
    (SegmentBits.fromU32 131072).val.testBit 17 = true := by decide

/-- C3 (amended): every constructor except `From<u32>` keeps all bits at
positions 17 and above zero — `new` (and `Default`) produce the zero mask,
union and OR-ing in a `Segment` preserve the invariant, and so does the
`BitOr for Segment` constructor — while `From<u32>` stores its argument
unchanged, so it preserves the invariant only when the raw value already
satisfies it. -/
theorem segmentBits_high_bits_invariant :
    (∀ j, 17 ≤ j → SegmentBits.new.val.testBit j = false) ∧
    (∀ a b : SegmentBits,
      (∀ j, 17 ≤ j → a.val.testBit j = false) →
      (∀ j, 17 ≤ j → b.val.testBit j = false) →
      ∀ j, 17 ≤ j → (a.or b).val.testBit j = false) ∧
    (∀ (a : SegmentBits) (s : Segment),
      (∀ j, 17 ≤ j → a.val.testBit j = false) →
      ∀ j, 17 ≤ j → (a.orSeg s).val.testBit j = false) ∧
    (∀ (s t : Segment) (j : Nat), 17 ≤ j →
      (s.orJoin t).val.testBit j = false) ∧
    (∀ v : Nat, (SegmentBits.fromU32 v).val = v) := by
  have horseg : ∀ (a : SegmentBits) (s : Segment),
      (∀ j, 17 ≤ j → a.val.testBit j = false) →
      ∀ j, 17 ≤ j → (a.orSeg s).val.testBit j = false := by
    intro a s ha j hj
    have hne : s.toIdx ≠ j := by
      have := Segment.toIdx_le s
      omega
    rw [SegmentBits.orSeg_val, Nat.testBit_lor, ha j hj,
      Nat.testBit_two_pow_of_ne hne]
    rfl
  refine ⟨?_, ?_, horseg, ?_, ?_⟩
  · intro j _
    exact Nat.zero_testBit j
  · intro a b ha hb j hj
    rw [SegmentBits.or_val, Nat.testBit_lor, ha j hj, hb j hj]
    rfl
  · intro s t j hj
    exact horseg _ t (horseg _ s (fun k _ => Nat.zero_testBit k) ) j hj
  · intro v
    rfl

/-- Witness for the amended C3: OR-ing segment B into the empty mask leaves
bit 20 clear. -/
theorem segmentBits_high_bits_invariant_witness :
    (SegmentBits.new.orSeg Segment.B).val.testBit 20 = false :=
  segmentBits_high_bits_invariant.2.2.1 SegmentBits.new Segment.B
    (fun j _ => Nat.zero_testBit j) 20 (by norm_num)

set_option maxRecDepth 4000 in
/-- C10: `Segment::try_from(v)` succeeds exactly when `v ≤ 16` (the ordinal
of DP), fails for every larger u8 value, and on success the returned
segment's ordinal equals `v`, so the transmute is only evaluated on in-range
discriminants. -/
theorem segment_try_from_ok_iff :
    ∀ v : Fin 256,
      ((Segment.try_from v).isSome ↔ v.val ≤ 16) ∧
      ∀ s : Segment, Segment.try_from v = some s → s.toIdx = v.val := by decide

/-- Witness for C10 at the concrete value 5: the conversion yields D2, whose
ordinal is 5. -/
theorem segment_try_from_witness : Segment.D2.toIdx = 5 :=
  (segment_try_from_ok_iff ⟨5, by norm_num⟩).2 Segment.D2 (by decide)

/-- C4: in the default font table, the character A maps to exactly the mask
of segments A1, A2, B, C, E, F, G1, G2; the character 0 to exactly A1, A2,
B, C, D1, D2, E, F, J, K; and the space character to the empty mask. -/
theorem default_font_A_zero_space :
    (DEFAULT.get 'A'
        = some (segList [Segment.A1, Segment.A2, Segment.B, Segment.C,
            Segment.E, Segment.F, Segment.G1, Segment.G2])) ∧
    (∀ s : Segment,
      (segList [Segment.A1, Segment.A2, Segment.B, Segment.C,
          Segment.E, Segment.F, Segment.G1, Segment.G2]).andSeg s
        = decide (s ∈ [Segment.A1, Segment.A2, Segment.B, Segment.C,
            Segment.E, Segment.F, Segment.G1, Segment.G2])) ∧
    (DEFAULT.get '0'
        = some (segList [Segment.A1, Segment.A2, Segment.B, Segment.C,
            Segment.D1, Segment.D2, Segment.E, Segment.F,
            Segment.J, Segment.K])) ∧
    (∀ s : Segment,
      (segList [Segment.A1, Segment.A2, Segment.B, Segment.C,
          Segment.D1, Segment.D2, Segment.E, Segment.F,
          Segment.J, Segment.K]).andSeg s
        = decide (s ∈ [Segment.A1, Segment.A2, Segment.B, Segment.C,
            Segment.D1, Segment.D2, Segment.E, Segment.F,
            Segment.J, Segment.K])) ∧
    (DEFAULT.get ' ' = some SegmentBits.new) ∧
    (∀ s : Segment, SegmentBits.new.andSeg s = false) := by decide

/-- C7: `modify_options` (and `set_options`) leave every one of the 17 cache
slots empty, set the options to the mutator applied to (respectively,
replaced by) the previous options, and change nothing else of the cell (its
only fields are the options and the cache). -/
theorem modify_options_clears_cache :
    ∀ (d : DigitDisplay) (modifier : DigitOptions → DigitOptions)
      (o : DigitOptions),
      ((d.modify_options modifier).options = modifier d.options ∧
        ∀ i, (d.modify_options modifier).cache i = none) ∧
      ((d.set_options o).options = o ∧
        ∀ i, (d.set_options o).cache i = none) :=
  fun _ _ _ => ⟨⟨rfl, fun _ => rfl⟩, ⟨rfl, fun _ => rfl⟩⟩

/-! Naturality of the draw functions in the composed transform: drawing with
`transform * self.transform` is drawing with `self.transform` and then
applying `transform` to every emitted point.  This is what makes the
table-driven mirror derivation work. -/

theorem path.segment_a1_transform (o : path.Options) (M : Mat2) :
    path.segment_a1 { o with transform := M.mul o.transform } =
      mapEvents M.mulVec (path.segment_a1 o) := by
  simp [path.segment_a1, mapEvents, Mat2.mulVec_mul]

theorem path.segment_f_transform (o : path.Options) (M : Mat2) :
    path.segment_f { o with transform := M.mul o.transform } =
      mapEvents M.mulVec (path.segment_f o) := by
  simp [path.segment_f, mapEvents, Mat2.mulVec_mul]

theorem path.segment_g1_transform (o : path.Options) (M : Mat2) :
    path.segment_g1 { o with transform := M.mul o.transform } =
      mapEvents M.mulVec (path.segment_g1 o) := by
  simp [path.segment_g1, mapEvents, Mat2.mulVec_mul]

theorem path.segment_h_transform (o : path.Options) (M : Mat2) :
    path.segment_h { o with transform := M.mul o.transform } =
      mapEvents M.mulVec (path.segment_h o) := by
  simp [path.segment_h, mapEvents, Mat2.mulVec_mul]

theorem path.segment_i_transform (o : path.Options) (M : Mat2) :
    path.segment_i { o with transform := M.mul o.transform } =
      mapEvents M.mulVec (path.segment_i o) := by
  simp [path.segment_i, mapEvents, Mat2.mulVec_mul]

theorem path.withTransform_IDENT (o : path.Options) :
    o.withTransform path.IDENT = o := by
  show { o with transform := Mat2.IDENT.mul o.transform } = o
  rw [Mat2.IDENT_mul]

/-- Deciding whether the decimal-point entry of the instruction table can be
obtained by composing one of the five segment draw functions with one of the
four reflection matrices, evaluated at the default options. -/
def dpDerivable : Bool :=
  [path.segment_a1, path.segment_f, path.segment_g1, path.segment_h,
      path.segment_i].any fun dfn =>
    [path.IDENT, path.MIRROR_X, path.MIRROR_Y, path.MIRROR_XY].any fun t =>
      path.segmentEvents 16 path.Options.defaultOptions ==
        mapEvents t.mulVec (dfn path.Options.defaultOptions)

/-- C1 as stated is refuted at the decimal-point segment (ordinal 16): its
draw function emits nothing, so at the default options its outline is not
any of the five base draw shapes composed with any of the four reflections
(the base outlines are all non-empty). -/
theorem dp_not_derived_from_base_shape : dpDerivable = false := by decide

/-- C1 (amended): every one of the 17 instruction-table entries pairs a draw
function with exactly one of {identity, mirror-X, mirror-Y, mirror-XY}, and
its emitted outline equals that reflection applied pointwise to the base
draw's outline; the 16 segments A1..M draw one of the four base shapes
(A1, F, G1, H/I), while the decimal-point entry (ordinal 16) draws the no-op
`segment_dot` instead and so derives the empty outline, not a base shape.
In particular, for identical options, B is F mirrored across the vertical
axis, C is F mirrored across both axes, and D1 is A1 mirrored vertically. -/
theorem segment_table_mirror_decomposition :
    ∀ o : path.Options,
      (∀ i : Fin 17,
        path.segmentEvents i o =
          mapEvents ((path.SEGMENT_INSTRUCTIONS i).transform.mulVec)
            ((path.SEGMENT_INSTRUCTIONS i).draw o) ∧
        ((path.SEGMENT_INSTRUCTIONS i).transform = path.IDENT ∨
          (path.SEGMENT_INSTRUCTIONS i).transform = path.MIRROR_X ∨
          (path.SEGMENT_INSTRUCTIONS i).transform = path.MIRROR_Y ∨
          (path.SEGMENT_INSTRUCTIONS i).transform = path.MIRROR_XY)) ∧
      (∀ j : Fin 16,
        (path.SEGMENT_INSTRUCTIONS j.castSucc).draw = path.segment_a1 ∨
        (path.SEGMENT_INSTRUCTIONS j.castSucc).draw = path.segment_f ∨
        (path.SEGMENT_INSTRUCTIONS j.castSucc).draw = path.segment_g1 ∨
        (path.SEGMENT_INSTRUCTIONS j.castSucc).draw = path.segment_h ∨
        (path.SEGMENT_INSTRUCTIONS j.castSucc).draw = path.segment_i) ∧
      ((path.SEGMENT_INSTRUCTIONS 16).draw = path.segment_dot) ∧
      path.segmentEvents 2 o
        = mapEvents path.MIRROR_X.mulVec (path.segmentEvents 7 o) ∧
      path.segmentEvents 3 o
        = mapEvents path.MIRROR_XY.mulVec (path.segmentEvents 7 o) ∧
      path.segmentEvents 4 o
        = mapEvents path.MIRROR_Y.mulVec (path.segmentEvents 0 o) := by
  intro o
  refine ⟨?_, ?_, rfl, ?_, ?_, ?_⟩
  · intro i
    fin_cases i
    · exact ⟨path.segment_a1_transform o path.IDENT, Or.inl rfl⟩
    · exact ⟨path.segment_a1_transform o path.MIRROR_X, Or.inr (Or.inl rfl)⟩
    · exact ⟨path.segment_f_transform o path.MIRROR_X, Or.inr (Or.inl rfl)⟩
    · exact ⟨path.segment_f_transform o path.MIRROR_XY,
        Or.inr (Or.inr (Or.inr rfl))⟩
    · exact ⟨path.segment_a1_transform o path.MIRROR_Y,
        Or.inr (Or.inr (Or.inl rfl))⟩
    · exact ⟨path.segment_a1_transform o path.MIRROR_XY,
        Or.inr (Or.inr (Or.inr rfl))⟩
    · exact ⟨path.segment_f_transform o path.MIRROR_Y,
        Or.inr (Or.inr (Or.inl rfl))⟩
    · exact ⟨path.segment_f_transform o path.IDENT, Or.inl rfl⟩
    · exact ⟨path.segment_g1_transform o path.IDENT, Or.inl rfl⟩
    · exact ⟨path.segment_g1_transform o path.MIRROR_X, Or.inr (Or.inl rfl)⟩
    · exact ⟨path.segment_h_transform o path.IDENT, Or.inl rfl⟩
    · exact ⟨path.segment_i_transform o path.IDENT, Or.inl rfl⟩
    · exact ⟨path.segment_h_transform o path.MIRROR_X, Or.inr (Or.inl rfl)⟩
    · exact ⟨path.segment_h_transform o path.MIRROR_Y,
        Or.inr (Or.inr (Or.inl rfl))⟩
    · exact ⟨path.segment_i_transform o path.MIRROR_Y,
        Or.inr (Or.inr (Or.inl rfl))⟩
    · exact ⟨path.segment_h_transform o path.MIRROR_XY,
        Or.inr (Or.inr (Or.inr rfl))⟩
    · exact ⟨rfl, Or.inl rfl⟩
  · intro j
    fin_cases j
    · exact Or.inl rfl
    · exact Or.inl rfl
    · exact Or.inr (Or.inl rfl)
    · exact Or.inr (Or.inl rfl)
    · exact Or.inl rfl
    · exact Or.inl rfl
    · exact Or.inr (Or.inl rfl)
    · exact Or.inr (Or.inl rfl)
    · exact Or.inr (Or.inr (Or.inl rfl))
    · exact Or.inr (Or.inr (Or.inl rfl))
    · exact Or.inr (Or.inr (Or.inr (Or.inl rfl)))
    · exact Or.inr (Or.inr (Or.inr (Or.inr rfl)))
    · exact Or.inr (Or.inr (Or.inr (Or.inl rfl)))
    · exact Or.inr (Or.inr (Or.inr (Or.inl rfl)))
    · exact Or.inr (Or.inr (Or.inr (Or.inr rfl)))
    · exact Or.inr (Or.inr (Or.inr (Or.inl rfl)))
  · show path.segment_f (o.withTransform path.MIRROR_X)
        = mapEvents path.MIRROR_X.mulVec
            (path.segment_f (o.withTransform path.IDENT))
    rw [path.withTransform_IDENT]
    exact path.segment_f_transform o path.MIRROR_X
  · show path.segment_f (o.withTransform path.MIRROR_XY)
        = mapEvents path.MIRROR_XY.mulVec
            (path.segment_f (o.withTransform path.IDENT))
    rw [path.withTransform_IDENT]
    exact path.segment_f_transform o path.MIRROR_XY
  · show path.segment_a1 (o.withTransform path.MIRROR_Y)
        = mapEvents path.MIRROR_Y.mulVec
            (path.segment_a1 (o.withTransform path.IDENT))
    rw [path.withTransform_IDENT]
    exact path.segment_a1_transform o path.MIRROR_Y

/-- C6: for every options value and every segment ordinal, the drawn outline
has no points exactly for the decimal-point segment (ordinal 16); every
other segment emits a non-empty point sequence. -/
theorem segment_points_empty_iff_dp :
    ∀ (o : path.Options) (i : Fin 17),
      pointsOf (path.segmentEvents i o) = [] ↔ i.val = 16 := by
  intro o i
  fin_cases i
  · show pointsOf (path.segment_a1 (o.withTransform path.IDENT)) = [] ↔ 0 = 16
    simp [path.segment_a1, pointsOf]
  · show pointsOf (path.segment_a1 (o.withTransform path.MIRROR_X)) = []
        ↔ 1 = 16
    simp [path.segment_a1, pointsOf]
  · show pointsOf (path.segment_f (o.withTransform path.MIRROR_X)) = []
        ↔ 2 = 16
    simp [path.segment_f, pointsOf]
  · show pointsOf (path.segment_f (o.withTransform path.MIRROR_XY)) = []
        ↔ 3 = 16
    simp [path.segment_f, pointsOf]
  · show pointsOf (path.segment_a1 (o.withTransform path.MIRROR_Y)) = []
        ↔ 4 = 16
    simp [path.segment_a1, pointsOf]
  · show pointsOf (path.segment_a1 (o.withTransform path.MIRROR_XY)) = []
        ↔ 5 = 16
    simp [path.segment_a1, pointsOf]
  · show pointsOf (path.segment_f (o.withTransform path.MIRROR_Y)) = []
        ↔ 6 = 16
    simp [path.segment_f, pointsOf]
  · show pointsOf (path.segment_f (o.withTransform path.IDENT)) = [] ↔ 7 = 16
    simp [path.segment_f, pointsOf]
  · show pointsOf (path.segment_g1 (o.withTransform path.IDENT)) = [] ↔ 8 = 16
    simp [path.segment_g1, pointsOf]
  · show pointsOf (path.segment_g1 (o.withTransform path.MIRROR_X)) = []
        ↔ 9 = 16
    simp [path.segment_g1, pointsOf]
  · show pointsOf (path.segment_h (o.withTransform path.IDENT)) = [] ↔ 10 = 16
    simp [path.segment_h, pointsOf]
  · show pointsOf (path.segment_i (o.withTransform path.IDENT)) = [] ↔ 11 = 16
    simp [path.segment_i, pointsOf]
  · show pointsOf (path.segment_h (o.withTransform path.MIRROR_X)) = []
        ↔ 12 = 16
    simp [path.segment_h, pointsOf]
  · show pointsOf (path.segment_h (o.withTransform path.MIRROR_Y)) = []
        ↔ 13 = 16
    simp [path.segment_h, pointsOf]
  · show pointsOf (path.segment_i (o.withTransform path.MIRROR_Y)) = []
        ↔ 14 = 16
    simp [path.segment_i, pointsOf]
  · show pointsOf (path.segment_h (o.withTransform path.MIRROR_XY)) = []
        ↔ 15 = 16
    simp [path.segment_h, pointsOf]
  · show pointsOf (path.segment_dot (o.withTransform path.IDENT)) = []
        ↔ 16 = 16
    simp [path.segment_dot, pointsOf]

/-- All points of a list coincide. -/
def allPointsEqual (l : List Vec2) : Prop :=
  ∀ p ∈ l, ∀ p2 ∈ l, p = p2

/-- The number of builder events each segment's draw function always emits
(its point count plus one closing command; zero for the decimal point). -/
def segLen : Fin 17 → Nat :=
  ![6, 6, 7, 7, 6, 6, 7, 7, 6, 6, 7, 5, 7, 7, 5, 7, 0]

theorem path.segmentEvents_zero (o : path.Options) :
    path.segmentEvents 0 o = path.segment_a1 (o.withTransform path.IDENT) :=
  rfl

theorem path.segmentEvents_seven (o : path.Options) :
    path.segmentEvents 7 o = path.segment_f (o.withTransform path.IDENT) :=
  rfl

theorem path.segmentEvents_ten (o : path.Options) :
    path.segmentEvents 10 o = path.segment_h (o.withTransform path.IDENT) :=
  rfl

/-- C9 as stated is refuted: at gap 0 and thickness 0 but the default cell
size 100 x 200, segment 0 (A1) emits the corner point (-50, -100) as its
first outline point and the mid-top point (0, -100) as its third, so the
outline degenerates to a line, not to a single repeated point. -/
theorem gap_thickness_zero_not_single_point :
    (pointsOf (path.segmentEvents 0
        { size := Size.new (q 100) (q 200), gap := 0, thickness := 0,
          pos_transform := Mat2.IDENT, transform := Mat2.IDENT })).getD 0
        Vec2.zero
      ≠ (pointsOf (path.segmentEvents 0
          { size := Size.new (q 100) (q 200), gap := 0, thickness := 0,
            pos_transform := Mat2.IDENT, transform := Mat2.IDENT })).getD 2
          Vec2.zero := by
  rw [path.segmentEvents_zero]
  simp [pointsOf, path.segment_a1, path.Options.withTransform, path.IDENT,
    Vec2.eq_comp_iff, Q2.eq_iff, Vec2.mulScalar, Mat2.IDENT, q, SQRT_2,
    FRAC_1_SQRT_2]

/-! At size, gap and thickness all zero, every draw function collapses to a
repeated single point, whatever the composed transforms are. -/

theorem path.segment_a1_zero_allEq (P T : Mat2) :
    allPointsEqual (pointsOf (path.segment_a1
      { size := Size.new 0 0, gap := 0, thickness := 0,
        pos_transform := P, transform := T })) := by
  simp [allPointsEqual, pointsOf, path.segment_a1, Vec2.mulScalar]
  repeat' apply And.intro
  all_goals apply Vec2.ext <;> apply Q2.ext <;> simp [-mul_eq_mul_left_iff, -mul_eq_mul_right_iff] <;> ring

theorem path.segment_f_zero_allEq (P T : Mat2) :
    allPointsEqual (pointsOf (path.segment_f
      { size := Size.new 0 0, gap := 0, thickness := 0,
        pos_transform := P, transform := T })) := by
  simp [allPointsEqual, pointsOf, path.segment_f, Vec2.mulScalar]
  repeat' apply And.intro
  all_goals apply Vec2.ext <;> apply Q2.ext <;> simp [-mul_eq_mul_left_iff, -mul_eq_mul_right_iff] <;> ring

theorem path.segment_g1_zero_allEq (P T : Mat2) :
    allPointsEqual (pointsOf (path.segment_g1
      { size := Size.new 0 0, gap := 0, thickness := 0,
        pos_transform := P, transform := T })) := by
  simp [allPointsEqual, pointsOf, path.segment_g1, Vec2.mulScalar]
  repeat' apply And.intro
  all_goals apply Vec2.ext <;> apply Q2.ext <;> simp [-mul_eq_mul_left_iff, -mul_eq_mul_right_iff] <;> ring

theorem path.segment_h_zero_allEq (P T : Mat2) :
    allPointsEqual (pointsOf (path.segment_h
      { size := Size.new 0 0, gap := 0, thickness := 0,
        pos_transform := P, transform := T })) := by
  simp [allPointsEqual, pointsOf, path.segment_h, Vec2.mulScalar]
  repeat' apply And.intro
  all_goals apply Vec2.ext <;> apply Q2.ext <;> simp [-mul_eq_mul_left_iff, -mul_eq_mul_right_iff] <;> ring

theorem path.segment_i_zero_allEq (P T : Mat2) :
    allPointsEqual (pointsOf (path.segment_i
      { size := Size.new 0 0, gap := 0, thickness := 0,
        pos_transform := P, transform := T })) := by
  simp [allPointsEqual, pointsOf, path.segment_i, Vec2.mulScalar]
  repeat' apply And.intro
  all_goals apply Vec2.ext <;> apply Q2.ext <;> simp [-mul_eq_mul_left_iff, -mul_eq_mul_right_iff] <;> ring

/-- C9 (amended): when gap, thickness and both size components are 0, every
segment's emitted points coincide (a single point repeated); and the
geometry computation is total — for every size (including zero width or
height), gap and thickness it performs no division and always emits its
fixed number of events, so it cannot panic. -/
theorem degenerate_options_geometry :
    (∀ i : Fin 17,
      allPointsEqual (pointsOf (path.segmentEvents i
        { size := Size.new 0 0, gap := 0, thickness := 0,
          pos_transform := Mat2.IDENT, transform := Mat2.IDENT }))) ∧
    (∀ (size : Size) (gap thickness : Q2) (i : Fin 17),
      (path.segmentEvents i
        { size := size, gap := gap, thickness := thickness,
          pos_transform := Mat2.IDENT, transform := Mat2.IDENT }).length
        = segLen i) := by
  constructor
  · intro i
    fin_cases i
    · exact path.segment_a1_zero_allEq _ _
    · exact path.segment_a1_zero_allEq _ _
    · exact path.segment_f_zero_allEq _ _
    · exact path.segment_f_zero_allEq _ _
    · exact path.segment_a1_zero_allEq _ _
    · exact path.segment_a1_zero_allEq _ _
    · exact path.segment_f_zero_allEq _ _
    · exact path.segment_f_zero_allEq _ _
    · exact path.segment_g1_zero_allEq _ _
    · exact path.segment_g1_zero_allEq _ _
    · exact path.segment_h_zero_allEq _ _
    · exact path.segment_i_zero_allEq _ _
    · exact path.segment_h_zero_allEq _ _
    · exact path.segment_h_zero_allEq _ _
    · exact path.segment_i_zero_allEq _ _
    · exact path.segment_h_zero_allEq _ _
    · exact fun p hp => absurd hp (List.not_mem_nil p)
  · intro size gap thickness i
    fin_cases i <;> rfl

/-! Refinement of the point-table encoding against the draw functions. -/

/-- Converts the point-table drawing options to the function-table options
with the same fields. -/
def toPathOptions (o : geometry.DrawingOptions) : path.Options :=
  { size := o.size, gap := o.gap, thickness := o.thickness,
    pos_transform := o.pos_transform, transform := o.transform }

theorem geometry.draw_path_A1 (o : geometry.DrawingOptions) :
    geometry.draw_path geometry.A1 o = path.segment_a1 (toPathOptions o) := by
  simp [geometry.draw_path, geometry.A1, path.segment_a1, toPathOptions,
    geometry.SegmentPoint.new, geometry.SegmentPoint.with_thickness_offset,
    geometry.SegmentPoint.with_gap_offset, geometry.TOP_LEFT, geometry.TOP,
    geometry.LEFT, geometry.MID, geometry.DGAP, geometry.DGAP_INNER,
    Vec2.zero, Vec2.one, Vec2.negOne, Vec2.unitX, Vec2.unitY, Vec2.negX,
    Vec2.negY, Vec2.cmul, Vec2.smul, Vec2.mulScalar]
  repeat' apply And.intro
  all_goals apply Vec2.ext <;> apply Q2.ext <;> simp [-mul_eq_mul_left_iff, -mul_eq_mul_right_iff] <;> ring

theorem geometry.draw_path_G1 (o : geometry.DrawingOptions) :
    geometry.draw_path geometry.G1 o = path.segment_g1 (toPathOptions o) := by
  simp [geometry.draw_path, geometry.G1, path.segment_g1, toPathOptions,
    geometry.SegmentPoint.new, geometry.SegmentPoint.with_thickness_offset,
    geometry.SegmentPoint.with_gap_offset, geometry.TOP_LEFT, geometry.TOP,
    geometry.LEFT, geometry.MID, geometry.DGAP, geometry.DGAP_INNER,
    Vec2.zero, Vec2.one, Vec2.negOne, Vec2.unitX, Vec2.unitY, Vec2.negX,
    Vec2.negY, Vec2.cmul, Vec2.smul, Vec2.mulScalar]
  repeat' apply And.intro
  all_goals apply Vec2.ext <;> apply Q2.ext <;> simp [-mul_eq_mul_left_iff, -mul_eq_mul_right_iff] <;> ring

theorem geometry.draw_path_I (o : geometry.DrawingOptions) :
    geometry.draw_path geometry.I o = path.segment_i (toPathOptions o) := by
  simp [geometry.draw_path, geometry.I, path.segment_i, toPathOptions,
    geometry.SegmentPoint.new, geometry.SegmentPoint.with_thickness_offset,
    geometry.SegmentPoint.with_gap_offset, geometry.TOP_LEFT, geometry.TOP,
    geometry.LEFT, geometry.MID, geometry.DGAP, geometry.DGAP_INNER,
    Vec2.zero, Vec2.one, Vec2.negOne, Vec2.unitX, Vec2.unitY, Vec2.negX,
    Vec2.negY, Vec2.cmul, Vec2.smul, Vec2.mulScalar]
  repeat' apply And.intro
  all_goals apply Vec2.ext <;> apply Q2.ext <;> simp [-mul_eq_mul_left_iff, -mul_eq_mul_right_iff] <;> ring

theorem geometry.draw_path_F_gap_zero
    (size : Size) (thickness : Q2) (P T : Mat2) :
    geometry.draw_path geometry.F
        { size := size, gap := 0, thickness := thickness,
          pos_transform := P, transform := T }
      = path.segment_f
          { size := size, gap := 0, thickness := thickness,
            pos_transform := P, transform := T } := by
  simp [geometry.draw_path, geometry.F, path.segment_f,
    geometry.SegmentPoint.new, geometry.SegmentPoint.with_thickness_offset,
    geometry.SegmentPoint.with_gap_offset, geometry.TOP_LEFT, geometry.TOP,
    geometry.LEFT, geometry.MID, geometry.DGAP, geometry.DGAP_INNER,
    Vec2.zero, Vec2.one, Vec2.negOne, Vec2.unitX, Vec2.unitY, Vec2.negX,
    Vec2.negY, Vec2.cmul, Vec2.smul, Vec2.mulScalar]
  repeat' apply And.intro
  all_goals apply Vec2.ext <;> apply Q2.ext <;> simp [-mul_eq_mul_left_iff, -mul_eq_mul_right_iff] <;> ring

/-- The drawing of segment `i` by the function table of `digit.rs` at the
given size, gap and thickness, with identity caller transforms (as built in
`DigitProgram::draw_segments`). -/
def digitSegmentEvents (i : Fin 17) (size : Size) (gap thickness : Q2) :
    List PathEvent :=
  path.segmentEvents i
    { size := size, gap := gap, thickness := thickness,
      pos_transform := Mat2.IDENT, transform := Mat2.IDENT }

theorem geometry.segmentEvents_seven_F (size : Size) (gap thickness : Q2) :
    geometry.segmentEvents 7 size gap thickness =
      geometry.draw_path geometry.F
        (geometry.DrawingOptions.withTransform
          { size := size, gap := gap, thickness := thickness,
            pos_transform := Mat2.IDENT, transform := Mat2.IDENT }
          path.IDENT) := rfl

theorem geometry.segmentEvents_ten_H (size : Size) (gap thickness : Q2) :
    geometry.segmentEvents 10 size gap thickness =
      geometry.draw_path geometry.H
        (geometry.DrawingOptions.withTransform
          { size := size, gap := gap, thickness := thickness,
            pos_transform := Mat2.IDENT, transform := Mat2.IDENT }
          path.IDENT) := rfl

/-- C2 as stated is refuted at the source's default parameters (size
100 x 200, gap 2, thickness 12): for segment F (ordinal 7) the fourth
outline point of the point table uses a half-gap offset where the draw
function uses a diagonal gap offset, and for segment H (ordinal 10) the
second point of the table uses a 1.5-thickness corner where the draw
function uses thickness plus 8 percent of the width, so the two emitted
point sequences differ. -/
theorem point_table_differs_from_draw_functions :
    ((pointsOf (geometry.segmentEvents 7
          (Size.new (q 100) (q 200)) (q 2) (q 12))).getD 3 Vec2.zero
        ≠ (pointsOf (digitSegmentEvents 7
            (Size.new (q 100) (q 200)) (q 2) (q 12))).getD 3 Vec2.zero) ∧
    ((pointsOf (geometry.segmentEvents 10
          (Size.new (q 100) (q 200)) (q 2) (q 12))).getD 1 Vec2.zero
        ≠ (pointsOf (digitSegmentEvents 10
            (Size.new (q 100) (q 200)) (q 2) (q 12))).getD 1 Vec2.zero) := by
  constructor
  · rw [geometry.segmentEvents_seven_F]
    rw [show digitSegmentEvents 7 (Size.new (q 100) (q 200)) (q 2) (q 12)
        = path.segment_f
            (path.Options.withTransform
              { size := Size.new (q 100) (q 200), gap := q 2,
                thickness := q 12, pos_transform := Mat2.IDENT,
                transform := Mat2.IDENT } path.IDENT) from rfl]
    simp [pointsOf, geometry.draw_path, geometry.F, path.segment_f,
      geometry.SegmentPoint.new, geometry.SegmentPoint.with_thickness_offset,
      geometry.SegmentPoint.with_gap_offset, geometry.TOP_LEFT, geometry.TOP,
      geometry.LEFT, geometry.MID, geometry.DGAP, geometry.DGAP_INNER,
      Vec2.zero, Vec2.one, Vec2.negOne, Vec2.unitX, Vec2.unitY, Vec2.negX,
      Vec2.negY, Vec2.cmul, Vec2.smul, Vec2.mulScalar,
      geometry.DrawingOptions.withTransform, path.Options.withTransform,
      path.IDENT, Mat2.IDENT, Vec2.eq_comp_iff, Q2.eq_iff, q, SQRT_2,
      FRAC_1_SQRT_2]
  · rw [geometry.segmentEvents_ten_H]
    rw [show digitSegmentEvents 10 (Size.new (q 100) (q 200)) (q 2) (q 12)
        = path.segment_h
            (path.Options.withTransform
              { size := Size.new (q 100) (q 200), gap := q 2,
                thickness := q 12, pos_transform := Mat2.IDENT,
                transform := Mat2.IDENT } path.IDENT) from rfl]
    simp [pointsOf, geometry.draw_path, geometry.H, path.segment_h,
      path.SHORT_SIDE, path.LONG_SIDE,
      geometry.SegmentPoint.new, geometry.SegmentPoint.with_thickness_offset,
      geometry.SegmentPoint.with_gap_offset, geometry.TOP_LEFT, geometry.TOP,
      geometry.LEFT, geometry.MID, geometry.DGAP, geometry.DGAP_INNER,
      Vec2.zero, Vec2.one, Vec2.negOne, Vec2.unitX, Vec2.unitY, Vec2.negX,
      Vec2.negY, Vec2.cmul, Vec2.smul, Vec2.mulScalar,
      geometry.DrawingOptions.withTransform, path.Options.withTransform,
      path.IDENT, Mat2.IDENT, Vec2.eq_comp_iff, Q2.eq_iff, q, SQRT_2,
      FRAC_1_SQRT_2]
    norm_num

/-- C2 (amended): the two encodings agree exactly on the segments derived
from the A1, G1 and I base shapes — A1, A2, D1, D2 (ordinals 0, 1, 4, 5),
G1, G2 (8, 9) and I, L (11, 14) — for every size, gap and thickness with
identity caller transforms; the F-shape segments B, C, E, F (2, 3, 6, 7)
agree only when the gap is 0, and the H-shape segments differ. -/
theorem point_table_refines_draw_functions :
    ∀ (size : Size) (gap thickness : Q2),
      (geometry.segmentEvents 0 size gap thickness
          = digitSegmentEvents 0 size gap thickness) ∧
      (geometry.segmentEvents 1 size gap thickness
          = digitSegmentEvents 1 size gap thickness) ∧
      (geometry.segmentEvents 4 size gap thickness
          = digitSegmentEvents 4 size gap thickness) ∧
      (geometry.segmentEvents 5 size gap thickness
          = digitSegmentEvents 5 size gap thickness) ∧
      (geometry.segmentEvents 8 size gap thickness
          = digitSegmentEvents 8 size gap thickness) ∧
      (geometry.segmentEvents 9 size gap thickness
          = digitSegmentEvents 9 size gap thickness) ∧
      (geometry.segmentEvents 11 size gap thickness
          = digitSegmentEvents 11 size gap thickness) ∧
      (geometry.segmentEvents 14 size gap thickness
          = digitSegmentEvents 14 size gap thickness) ∧
      (geometry.segmentEvents 2 size 0 thickness
          = digitSegmentEvents 2 size 0 thickness) ∧
      (geometry.segmentEvents 3 size 0 thickness
          = digitSegmentEvents 3 size 0 thickness) ∧
      (geometry.segmentEvents 6 size 0 thickness
          = digitSegmentEvents 6 size 0 thickness) ∧
      (geometry.segmentEvents 7 size 0 thickness
          = digitSegmentEvents 7 size 0 thickness) := by
  intro size gap thickness
  refine ⟨?_, ?_, ?_, ?_, ?_, ?_, ?_, ?_, ?_, ?_, ?_, ?_⟩
  · show geometry.draw_path geometry.A1
        (geometry.DrawingOptions.withTransform
          { size := size, gap := gap, thickness := thickness,
            pos_transform := Mat2.IDENT, transform := Mat2.IDENT } path.IDENT)
      = path.segment_a1
          (path.Options.withTransform
            { size := size, gap := gap, thickness := thickness,
              pos_transform := Mat2.IDENT, transform := Mat2.IDENT } path.IDENT)
    simp [geometry.DrawingOptions.withTransform, path.Options.withTransform,
      path.IDENT, geometry.draw_path_A1, toPathOptions]
  · show geometry.draw_path geometry.A1
        (geometry.DrawingOptions.withTransform
          { size := size, gap := gap, thickness := thickness,
            pos_transform := Mat2.IDENT, transform := Mat2.IDENT } path.MIRROR_X)
      = path.segment_a1
          (path.Options.withTransform
            { size := size, gap := gap, thickness := thickness,
              pos_transform := Mat2.IDENT, transform := Mat2.IDENT }
            path.MIRROR_X)
    simp [geometry.DrawingOptions.withTransform, path.Options.withTransform,
      path.IDENT, geometry.draw_path_A1, toPathOptions]
  · show geometry.draw_path geometry.A1
        (geometry.DrawingOptions.withTransform
          { size := size, gap := gap, thickness := thickness,
            pos_transform := Mat2.IDENT, transform := Mat2.IDENT } path.MIRROR_Y)
      = path.segment_a1
          (path.Options.withTransform
            { size := size, gap := gap, thickness := thickness,
              pos_transform := Mat2.IDENT, transform := Mat2.IDENT }
            path.MIRROR_Y)
    simp [geometry.DrawingOptions.withTransform, path.Options.withTransform,
      path.IDENT, geometry.draw_path_A1, toPathOptions]
  · show geometry.draw_path geometry.A1
        (geometry.DrawingOptions.withTransform
          { size := size, gap := gap, thickness := thickness,
            pos_transform := Mat2.IDENT, transform := Mat2.IDENT }
          path.MIRROR_XY)
      = path.segment_a1
          (path.Options.withTransform
            { size := size, gap := gap, thickness := thickness,
              pos_transform := Mat2.IDENT, transform := Mat2.IDENT }
            path.MIRROR_XY)
    simp [geometry.DrawingOptions.withTransform, path.Options.withTransform,
      path.IDENT, geometry.draw_path_A1, toPathOptions]
  · show geometry.draw_path geometry.G1
        (geometry.DrawingOptions.withTransform
          { size := size, gap := gap, thickness := thickness,
            pos_transform := Mat2.IDENT, transform := Mat2.IDENT } path.IDENT)
      = path.segment_g1
          (path.Options.withTransform
            { size := size, gap := gap, thickness := thickness,
              pos_transform := Mat2.IDENT, transform := Mat2.IDENT } path.IDENT)
    simp [geometry.DrawingOptions.withTransform, path.Options.withTransform,
      path.IDENT, geometry.draw_path_G1, toPathOptions]
  · show geometry.draw_path geometry.G1
        (geometry.DrawingOptions.withTransform
          { size := size, gap := gap, thickness := thickness,
            pos_transform := Mat2.IDENT, transform := Mat2.IDENT } path.MIRROR_X)
      = path.segment_g1
          (path.Options.withTransform
            { size := size, gap := gap, thickness := thickness,
              pos_transform := Mat2.IDENT, transform := Mat2.IDENT }
            path.MIRROR_X)
    simp [geometry.DrawingOptions.withTransform, path.Options.withTransform,
      path.IDENT, geometry.draw_path_G1, toPathOptions]
  · show geometry.draw_path geometry.I
        (geometry.DrawingOptions.withTransform
          { size := size, gap := gap, thickness := thickness,
            pos_transform := Mat2.IDENT, transform := Mat2.IDENT } path.IDENT)
      = path.segment_i
          (path.Options.withTransform
            { size := size, gap := gap, thickness := thickness,
              pos_transform := Mat2.IDENT, transform := Mat2.IDENT } path.IDENT)
    simp [geometry.DrawingOptions.withTransform, path.Options.withTransform,
      path.IDENT, geometry.draw_path_I, toPathOptions]
  · show geometry.draw_path geometry.I
        (geometry.DrawingOptions.withTransform
          { size := size, gap := gap, thickness := thickness,
            pos_transform := Mat2.IDENT, transform := Mat2.IDENT } path.MIRROR_Y)
      = path.segment_i
          (path.Options.withTransform
            { size := size, gap := gap, thickness := thickness,
              pos_transform := Mat2.IDENT, transform := Mat2.IDENT }
            path.MIRROR_Y)
    simp [geometry.DrawingOptions.withTransform, path.Options.withTransform,
      path.IDENT, geometry.draw_path_I, toPathOptions]
  · show geometry.draw_path geometry.F
        (geometry.DrawingOptions.withTransform
          { size := size, gap := 0, thickness := thickness,
            pos_transform := Mat2.IDENT, transform := Mat2.IDENT } path.MIRROR_X)
      = path.segment_f
          (path.Options.withTransform
            { size := size, gap := 0, thickness := thickness,
              pos_transform := Mat2.IDENT, transform := Mat2.IDENT }
            path.MIRROR_X)
    simp [geometry.DrawingOptions.withTransform, path.Options.withTransform,
      path.IDENT, geometry.draw_path_F_gap_zero]
  · show geometry.draw_path geometry.F
        (geometry.DrawingOptions.withTransform
          { size := size, gap := 0, thickness := thickness,
            pos_transform := Mat2.IDENT, transform := Mat2.IDENT }
          path.MIRROR_XY)
      = path.segment_f
          (path.Options.withTransform
            { size := size, gap := 0, thickness := thickness,
              pos_transform := Mat2.IDENT, transform := Mat2.IDENT }
            path.MIRROR_XY)
    simp [geometry.DrawingOptions.withTransform, path.Options.withTransform,
      path.IDENT, geometry.draw_path_F_gap_zero]
  · show geometry.draw_path geometry.F
        (geometry.DrawingOptions.withTransform
          { size := size, gap := 0, thickness := thickness,
            pos_transform := Mat2.IDENT, transform := Mat2.IDENT } path.MIRROR_Y)
      = path.segment_f
          (path.Options.withTransform
            { size := size, gap := 0, thickness := thickness,
              pos_transform := Mat2.IDENT, transform := Mat2.IDENT }
            path.MIRROR_Y)
    simp [geometry.DrawingOptions.withTransform, path.Options.withTransform,
      path.IDENT, geometry.draw_path_F_gap_zero]
  · show geometry.draw_path geometry.F
        (geometry.DrawingOptions.withTransform
          { size := size, gap := 0, thickness := thickness,
            pos_transform := Mat2.IDENT, transform := Mat2.IDENT } path.IDENT)
      = path.segment_f
          (path.Options.withTransform
            { size := size, gap := 0, thickness := thickness,
              pos_transform := Mat2.IDENT, transform := Mat2.IDENT } path.IDENT)
    simp [geometry.DrawingOptions.withTransform, path.Options.withTransform,
      path.IDENT, geometry.draw_path_F_gap_zero]

/-- C8: the draw operation returns an empty geometry list with the cell
untouched whenever the segment mask is empty or the draw bounds differ from
the configured cell size; otherwise its output is exactly one filled
geometry per set bit, in segment-ordinal order (unlit segments contribute
nothing), so within one render either all lit segments render or none do. -/
theorem programDraw_short_circuits_or_draws_lit :
    ∀ (d : DigitDisplay) (segments : SegmentBits) (bounds : Size),
      (segments.is_empty = true ∨ bounds ≠ d.options.size →
        programDraw d segments bounds = ([], d)) ∧
      (segments.is_empty = false → bounds = d.options.size →
        (programDraw d segments bounds).1 =
          ((List.finRange 17).filter fun i =>
              segments.andSeg (Segment.ofIdx i.val)).map
            (draw_segments d).1) := by
  intro d segments bounds
  constructor
  · intro h
    simp only [programDraw, if_pos h]
  · intro h1 h2
    have hcond : ¬(segments.is_empty = true ∨ bounds ≠ d.options.size) := by
      rintro (hc | hc)
      · rw [h1] at hc
        exact Bool.false_ne_true hc
      · exact hc h2
    simp only [programDraw, if_neg hcond]

/-- Witness for C8: at the default cell, the empty mask short-circuits, and
the mask of the six segments lit for the letter H renders exactly its lit
segments. -/
theorem programDraw_short_circuits_or_draws_lit_witness :
    programDraw (DigitDisplay.new DigitOptions.new) SegmentBits.new
        DigitOptions.new.size = ([], DigitDisplay.new DigitOptions.new) ∧
    (programDraw (DigitDisplay.new DigitOptions.new)
          (segList [Segment.B, Segment.C, Segment.E, Segment.F, Segment.G1,
            Segment.G2])
          DigitOptions.new.size).1 =
      ((List.finRange 17).filter fun i =>
          (segList [Segment.B, Segment.C, Segment.E, Segment.F, Segment.G1,
              Segment.G2]).andSeg (Segment.ofIdx i.val)).map
        (draw_segments (DigitDisplay.new DigitOptions.new)).1 :=
  ⟨(programDraw_short_circuits_or_draws_lit _ _ _).1 (Or.inl rfl),
   (programDraw_short_circuits_or_draws_lit _ _ _).2 rfl rfl⟩

end CatoDisplay
